/-
Verification of the document-registry mutation protocol
(drc/api/serializers.py) in a shallow Lean embedding.

Each definition mirrors one Python function or serializer; theorems
settle the spec's claims about locking, usage-rights validation,
classification resolution and relation immutability.
-/
import Mathlib

namespace Drc

/-- Error codes raised by the serializers (the `code=` of each
`serializers.ValidationError` in `drc/api/serializers.py`). -/
inductive ValidationCode where
  | existingGebruiksrechten   -- "existing-gebruiksrechten"
  | missingGebruiksrechten    -- "missing-gebruiksrechten"
  | unlocked                  -- "unlocked"
  | incorrectLockId           -- "incorrect-lock-id"
  | lockInCreate              -- "lock-in-create"
  | existingLock              -- "existing-lock"
  | immutableField            -- vng_api_common IsImmutableValidator rejection
deriving DecidableEq, Repr

/-- Nested value object `integriteit` (GegevensGroep: algorithm, hash
value, date) of EnkelvoudigInformatieObject. -/
structure Integriteit where
  algoritme : String
  waarde : String
  datum : String
deriving DecidableEq, Repr

/-- Nested value object `ondertekening` (GegevensGroep: kind, date) of
EnkelvoudigInformatieObject. -/
structure Ondertekening where
  soort : String
  datum : String
deriving DecidableEq, Repr

/-- The EnkelvoudigInformatieObject record, with the fields exposed by
`EnkelvoudigInformatieObjectSerializer` (writable model fields; the
read-only `url`/`bestandsomvang` are derived and omitted).  The lock
token is the model's `lock` CharField: empty string means unlocked. -/
structure EnkelvoudigInformatieObject where
  identificatie : String
  bronorganisatie : String
  creatiedatum : String
  titel : String
  vertrouwelijkheidaanduiding : String
  auteur : String
  status : String
  formaat : String
  taal : String
  bestandsnaam : String
  inhoud : String
  link : String
  beschrijving : String
  ontvangstdatum : Option String
  verzenddatum : Option String
  indicatie_gebruiksrecht : Option Bool
  ondertekening : Option Ondertekening
  integriteit : Option Integriteit
  informatieobjecttype : String
  lock : String
deriving DecidableEq, Repr

/-- A `validated_data` dict for the EnkelvoudigInformatieObject
serializer: `some v` means the key is present with value `v`, `none`
means the key is absent (as on a partial update omitting the field).
Nullable fields carry an inner Option, matching `allow_null`. -/
structure ValidatedData where
  identificatie : Option String := none
  bronorganisatie : Option String := none
  creatiedatum : Option String := none
  titel : Option String := none
  vertrouwelijkheidaanduiding : Option String := none
  auteur : Option String := none
  status : Option String := none
  formaat : Option String := none
  taal : Option String := none
  bestandsnaam : Option String := none
  inhoud : Option String := none
  link : Option String := none
  beschrijving : Option String := none
  ontvangstdatum : Option (Option String) := none
  verzenddatum : Option (Option String) := none
  indicatie_gebruiksrecht : Option (Option Bool) := none
  ondertekening : Option (Option Ondertekening) := none
  integriteit : Option (Option Integriteit) := none
  informatieobjecttype : Option String := none
  lock : Option String := none
deriving DecidableEq, Repr

/-- A Gebruiksrechten (usage rights) row, referencing one information
object (`GebruiksrechtenSerializer` fields minus the derived url). -/
structure Gebruiksrechten where
  informatieobject : String
  startdatum : String
  einddatum : Option String
  omschrijving_voorwaarden : String
deriving DecidableEq, Repr

/-- The result of `instance.gebruiksrechten_set.exists()`: whether any
usage-rights row references the given information object, here over an
explicit table of rows keyed by the object's identifier. -/
def gebruiksrechtenExists (rows : List Gebruiksrechten) (ioId : String) : Bool :=
  rows.any (fun g => g.informatieobject = ioId)

/-- Embeds `EnkelvoudigInformatieObjectSerializer.validate_indicatie_gebruiksrecht`.
`inst` is `self.instance` (`none` on create), `grExists` the value of
`self.instance.gebruiksrechten_set.exists()`, `indicatie` the submitted
tri-state indicator (None / False / True).  Python truthiness:
`not indicatie` holds for both `None` and `False`. -/
def validate_indicatie_gebruiksrecht (inst : Option EnkelvoudigInformatieObject)
    (grExists : Bool) (indicatie : Option Bool) :
    Except ValidationCode (Option Bool) :=
  if inst.isSome && !(indicatie.getD false) && grExists then
    .error .existingGebruiksrechten
  else if indicatie.getD false && (inst.isNone || !grExists) then
    .error .missingGebruiksrechten
  else
    .ok indicatie

/-- Embeds `EnkelvoudigInformatieObjectSerializer.validate`: the lock-state
check.  `lock = valid_attrs.get('lock', '')`; on update (instance
present) an empty stored lock raises `unlocked`, a mismatching token
raises `incorrect-lock-id`; on create a non-empty token raises
`lock-in-create`. -/
def eioValidateLock (inst : Option EnkelvoudigInformatieObject)
    (vd : ValidatedData) : Except ValidationCode ValidatedData :=
  let lk := vd.lock.getD ""
  match inst with
  | some obj =>
      if obj.lock = "" then .error .unlocked
      else if lk ≠ obj.lock then .error .incorrectLockId
      else .ok vd
  | none =>
      if lk ≠ "" then .error .lockInCreate
      else .ok vd

/-- Embeds `EnkelvoudigInformatieObjectSerializer.update`: pops `integriteit`
and `ondertekening` from `validated_data` with default `None` and
assigns them to the instance, then `super().update` setattrs each
remaining present key onto the instance. -/
def eioUpdate (inst : EnkelvoudigInformatieObject) (vd : ValidatedData) :
    EnkelvoudigInformatieObject :=
  { identificatie := vd.identificatie.getD inst.identificatie
    bronorganisatie := vd.bronorganisatie.getD inst.bronorganisatie
    creatiedatum := vd.creatiedatum.getD inst.creatiedatum
    titel := vd.titel.getD inst.titel
    vertrouwelijkheidaanduiding :=
      vd.vertrouwelijkheidaanduiding.getD inst.vertrouwelijkheidaanduiding
    auteur := vd.auteur.getD inst.auteur
    status := vd.status.getD inst.status
    formaat := vd.formaat.getD inst.formaat
    taal := vd.taal.getD inst.taal
    bestandsnaam := vd.bestandsnaam.getD inst.bestandsnaam
    inhoud := vd.inhoud.getD inst.inhoud
    link := vd.link.getD inst.link
    beschrijving := vd.beschrijving.getD inst.beschrijving
    ontvangstdatum := vd.ontvangstdatum.getD inst.ontvangstdatum
    verzenddatum := vd.verzenddatum.getD inst.verzenddatum
    indicatie_gebruiksrecht :=
      vd.indicatie_gebruiksrecht.getD inst.indicatie_gebruiksrecht
    -- validated_data.pop('ondertekening', None) / pop('integriteit', None):
    -- when the key is absent the instance field is overwritten with None
    ondertekening := vd.ondertekening.getD none
    integriteit := vd.integriteit.getD none
    informatieobjecttype := vd.informatieobjecttype.getD inst.informatieobjecttype
    lock := vd.lock.getD inst.lock }

/-- Result of `EnkelvoudigInformatieObjectSerializer.create`: the
persisted object, plus whether `_get_informatieobjecttype` (the remote
Type-Classification Resolver) was invoked. -/
structure CreateResult where
  eio : EnkelvoudigInformatieObject
  resolverCalled : Bool
deriving DecidableEq, Repr

/-- Embeds `EnkelvoudigInformatieObjectSerializer.create`: pops the nested
groups, resolves `vertrouwelijkheidaanduiding` from the object's
informatieobjecttype via the resolver only when the key is absent, then
persists.  `resolver` stands for `_get_informatieobjecttype(url)
['vertrouwelijkheidaanduiding']`; model/serializer defaults fill the
absent plain fields (CharFields default to the empty string, nullable
fields to None, and the lock of a created document is empty). -/
def eioCreate (vd : ValidatedData) (resolver : String → String) : CreateResult :=
  let iotUrl := vd.informatieobjecttype.getD ""
  let va : String × Bool :=
    match vd.vertrouwelijkheidaanduiding with
    | some v => (v, false)
    | none => (resolver iotUrl, true)
  { eio :=
      { identificatie := vd.identificatie.getD ""
        bronorganisatie := vd.bronorganisatie.getD ""
        creatiedatum := vd.creatiedatum.getD ""
        titel := vd.titel.getD ""
        vertrouwelijkheidaanduiding := va.1
        auteur := vd.auteur.getD ""
        status := vd.status.getD ""
        formaat := vd.formaat.getD ""
        taal := vd.taal.getD ""
        bestandsnaam := vd.bestandsnaam.getD ""
        inhoud := vd.inhoud.getD ""
        link := vd.link.getD ""
        beschrijving := vd.beschrijving.getD ""
        ontvangstdatum := vd.ontvangstdatum.getD none
        verzenddatum := vd.verzenddatum.getD none
        indicatie_gebruiksrecht := vd.indicatie_gebruiksrecht.getD none
        ondertekening := vd.ondertekening.getD none
        integriteit := vd.integriteit.getD none
        informatieobjecttype := iotUrl
        lock := vd.lock.getD "" },
    resolverCalled := va.2 }

/-- A 128-bit lowercase hex string: the shape of `uuid.uuid4().hex`,
the token generated by the lock serializer. -/
def isHex128 (s : String) : Bool :=
  s.length = 32 && s.toList.all (fun c => c.isDigit || ("abcdef".toList.contains c))

/-- Embeds `LockEnkelvoudigInformatieObjectSerializer` (validate + save):
rejects with `existing-lock` when the document already holds a
non-empty token; otherwise persists the freshly generated token
(`uuid.uuid4().hex`, supplied here as `freshToken`) and returns it. -/
def acquire (inst : EnkelvoudigInformatieObject) (freshToken : String) :
    Except ValidationCode (EnkelvoudigInformatieObject × String) :=
  if inst.lock ≠ "" then .error .existingLock
  else .ok ({ inst with lock := freshToken }, freshToken)

/-- Embeds `UnlockEnkelvoudigInformatieObjectSerializer` (validate + save):
with `force_unlock` the lock is cleared unconditionally; otherwise
`valid_attrs.get('lock', '')` must equal the stored lock
(`incorrect-lock-id` on mismatch), and on match the lock is cleared. -/
def release (inst : EnkelvoudigInformatieObject) (forceUnlock : Bool)
    (suppliedLock : Option String) :
    Except ValidationCode EnkelvoudigInformatieObject :=
  if forceUnlock then .ok { inst with lock := "" }
  else if suppliedLock.getD "" ≠ inst.lock then .error .incorrectLockId
  else .ok { inst with lock := "" }

/-- An ObjectInformatieObject row (relation between an information
object and an external object); `aard_relatie` is the model field added
by migration 0020 with choices hoort_bij / legt_vast. -/
structure ObjectInformatieObject where
  informatieobject : String
  obj : String
  object_type : String
  aard_relatie : String
deriving DecidableEq, Repr

/-- Incoming data for `ObjectInformatieObjectSerializer`.  Note that a
caller may submit an `aard_relatie` key even though the serializer's
`Meta.fields` lists only url / informatieobject / object /
object_type. -/
structure OioData where
  informatieobject : Option String := none
  obj : Option String := none
  object_type : Option String := none
  aard_relatie : Option String := none
deriving DecidableEq, Repr

/-- vng_api_common `IsImmutableValidator` on one field of an existing
instance: rejects a submitted value that differs from the stored one. -/
def isImmutableCheck (current : String) (submitted : Option String) :
    Except ValidationCode Unit :=
  match submitted with
  | none => .ok ()
  | some v => if v ≠ current then .error .immutableField else .ok ()

/-- Embeds `ObjectInformatieObjectSerializer` applied as an update.  DRF's
`to_internal_value` keeps only declared fields, so a submitted
`aard_relatie` key is dropped; `object` and `object_type` each carry
`IsImmutableValidator`; the surviving keys are then set on the
instance. -/
def oioUpdate (inst : ObjectInformatieObject) (d : OioData) :
    Except ValidationCode ObjectInformatieObject := do
  -- aard_relatie is not in Meta.fields: the key never reaches validated_data
  let d' : OioData := { d with aard_relatie := none }
  let _ ← isImmutableCheck inst.obj d'.obj
  let _ ← isImmutableCheck inst.object_type d'.object_type
  .ok { informatieobject := d'.informatieobject.getD inst.informatieobject
        obj := d'.obj.getD inst.obj
        object_type := d'.object_type.getD inst.object_type
        aard_relatie := inst.aard_relatie }


/-- A concrete unlocked information object used as a test fixture. -/
def sampleIntegriteit : Integriteit :=
  { algoritme := "sha_256", waarde := "abcdef1234", datum := "2019-07-01" }

/-- A concrete unlocked EnkelvoudigInformatieObject with a stored
integrity group. -/
def sampleEio : EnkelvoudigInformatieObject :=
  { identificatie := "DOC-0001"
    bronorganisatie := "159351741"
    creatiedatum := "2018-06-27"
    titel := "detailed summary"
    vertrouwelijkheidaanduiding := "openbaar"
    auteur := "test_auteur"
    status := "definitief"
    formaat := "txt"
    taal := "eng"
    bestandsnaam := "dummy.txt"
    inhoud := "c29tZSBmaWxlIGNvbnRlbnQ="
    link := ""
    beschrijving := ""
    ontvangstdatum := none
    verzenddatum := none
    indicatie_gebruiksrecht := none
    ondertekening := none
    integriteit := some sampleIntegriteit
    informatieobjecttype := "https://ztc.example.com/informatieobjecttypen/1"
    lock := "" }

/-- The same fixture holding a non-empty lock token. -/
def lockedEio : EnkelvoudigInformatieObject :=
  { sampleEio with lock := "3a7cbbcc84cb4169a1b2f9d0cbd61f0c" }

/-- A usage-rights row referencing the fixture object. -/
def sampleGebruiksrechten : Gebruiksrechten :=
  { informatieobject := "https://drc.example.com/enkelvoudiginformatieobjecten/1"
    startdatum := "2018-12-24"
    einddatum := none
    omschrijving_voorwaarden := "bedoeld voor hergebruik" }

/-- A concrete ObjectInformatieObject relation fixture. -/
def sampleOio : ObjectInformatieObject :=
  { informatieobject := "https://drc.example.com/enkelvoudiginformatieobjecten/1"
    obj := "https://zrc.example.com/zaken/1"
    object_type := "zaak"
    aard_relatie := "hoort_bij" }

/-- C4: on update, an empty stored lock fails with `unlocked`; a
non-empty stored lock with a differing supplied token fails with
`incorrect-lock-id` (LockMismatch) regardless of the rest of the
payload; a matching token passes the lock validation. -/
theorem eio_update_lock_validation (obj : EnkelvoudigInformatieObject)
    (vd : ValidatedData) :
    (obj.lock = "" → eioValidateLock (some obj) vd = .error .unlocked) ∧
    (obj.lock ≠ "" → vd.lock.getD "" ≠ obj.lock →
      eioValidateLock (some obj) vd = .error .incorrectLockId) ∧
    (obj.lock ≠ "" → vd.lock.getD "" = obj.lock →
      eioValidateLock (some obj) vd = .ok vd) := by
  refine ⟨fun h => by simp [eioValidateLock, h],
          fun h hne => by simp [eioValidateLock, h, hne],
          fun h heq => by simp [eioValidateLock, h, heq]⟩

/-- C4 witness: the three lock-validation outcomes at concrete inputs. -/
theorem eio_update_lock_validation_witness :
    eioValidateLock (some sampleEio) {} = .error .unlocked ∧
    eioValidateLock (some lockedEio) { lock := some "wrong-token" } =
      .error .incorrectLockId ∧
    eioValidateLock (some lockedEio)
        { lock := some "3a7cbbcc84cb4169a1b2f9d0cbd61f0c" } =
      .ok { lock := some "3a7cbbcc84cb4169a1b2f9d0cbd61f0c" } :=
  ⟨(eio_update_lock_validation sampleEio {}).1 rfl,
   (eio_update_lock_validation lockedEio _).2.1 (by decide) (by decide),
   (eio_update_lock_validation lockedEio _).2.2 (by decide) (by decide)⟩

/-- C5: a create request supplying any non-empty lock token fails with
`lock-in-create` (LockedAtCreate). -/
theorem eio_create_nonempty_lock_rejected (vd : ValidatedData) (t : String)
    (hsup : vd.lock = some t) (hne : t ≠ "") :
    eioValidateLock none vd = .error .lockInCreate := by
  simp [eioValidateLock, hsup, hne]

/-- C5 witness: creating with the concrete token "sometoken" is
rejected. -/
theorem eio_create_nonempty_lock_rejected_witness :
    eioValidateLock none { lock := some "sometoken" } = .error .lockInCreate :=
  eio_create_nonempty_lock_rejected { lock := some "sometoken" } "sometoken"
    rfl (by decide)

/-- C6: Acquire fails with `existing-lock` (AlreadyLocked) when the
stored lock is non-empty; when it is empty, the freshly generated
128-bit hex token is persisted as the object's lock and returned. -/
theorem acquire_spec (obj : EnkelvoudigInformatieObject) (t : String) :
    (obj.lock ≠ "" → acquire obj t = .error .existingLock) ∧
    (obj.lock = "" → isHex128 t = true →
      acquire obj t = .ok ({ obj with lock := t }, t)) := by
  refine ⟨fun h => by simp [acquire, h], fun h _ => by simp [acquire, h]⟩

/-- C6 witness: acquiring on the locked fixture fails; acquiring on the
unlocked fixture with a concrete uuid4-hex token persists and returns
it. -/
theorem acquire_spec_witness :
    acquire lockedEio "00112233445566778899aabbccddeeff" =
      .error .existingLock ∧
    acquire sampleEio "00112233445566778899aabbccddeeff" =
      .ok ({ sampleEio with lock := "00112233445566778899aabbccddeeff" },
           "00112233445566778899aabbccddeeff") :=
  ⟨(acquire_spec lockedEio _).1 (by decide),
   (acquire_spec sampleEio _).2 rfl (by decide)⟩

/-- C7: Release with force_unlock clears the lock unconditionally;
without force_unlock it fails with `incorrect-lock-id` (LockMismatch)
unless the supplied token equals the stored lock, and on a match clears
the lock. -/
theorem release_spec (obj : EnkelvoudigInformatieObject) (t : Option String) :
    (release obj true t = .ok { obj with lock := "" }) ∧
    (t.getD "" ≠ obj.lock → release obj false t = .error .incorrectLockId) ∧
    (t.getD "" = obj.lock → release obj false t = .ok { obj with lock := "" }) := by
  refine ⟨by simp [release], fun h => by simp [release, h],
          fun h => by simp [release, h]⟩

/-- C7 witness: on the locked fixture, a wrong token fails without
force, succeeds with force, and the matching token releases. -/
theorem release_spec_witness :
    release lockedEio false (some "wrong-token") = .error .incorrectLockId ∧
    release lockedEio true (some "wrong-token") = .ok { lockedEio with lock := "" } ∧
    release lockedEio false (some "3a7cbbcc84cb4169a1b2f9d0cbd61f0c") =
      .ok { lockedEio with lock := "" } :=
  ⟨(release_spec lockedEio (some "wrong-token")).2.1 (by decide),
   (release_spec lockedEio (some "wrong-token")).1,
   (release_spec lockedEio (some "3a7cbbcc84cb4169a1b2f9d0cbd61f0c")).2.2 (by decide)⟩

/-- C10: releasing an already-unlocked object without force and with an
omitted or empty supplied token succeeds (empty compares equal to
empty) and leaves the lock empty; no Unlocked-style rejection occurs. -/
theorem release_unlocked_succeeds (obj : EnkelvoudigInformatieObject)
    (t : Option String) (hobj : obj.lock = "") (ht : t.getD "" = "") :
    release obj false t = .ok { obj with lock := "" } := by
  simp [release, hobj, ht]

/-- C10 witness: releasing the unlocked fixture with an omitted token
succeeds. -/
theorem release_unlocked_succeeds_witness :
    release sampleEio false none = .ok { sampleEio with lock := "" } :=
  release_unlocked_succeeds sampleEio none rfl rfl


/-- C8: validation preserves the cross-entity indicator invariant:
submitting true with zero referencing usage-rights rows (create, or
update without rows) fails with `missing-gebruiksrechten`
(MissingUsageRights); submitting false or unknown on an update while a
row exists fails with `existing-gebruiksrechten` (UsageRightsConflict);
and whenever validation passes with true, the instance exists and a row
references it. -/
theorem indicatie_gebruiksrecht_invariant
    (inst : Option EnkelvoudigInformatieObject)
    (rows : List Gebruiksrechten) (ioId : String) (ind : Option Bool) :
    (ind = some true → (inst = none ∨ gebruiksrechtenExists rows ioId = false) →
      validate_indicatie_gebruiksrecht inst (gebruiksrechtenExists rows ioId) ind =
        .error .missingGebruiksrechten) ∧
    (∀ obj, inst = some obj → ind.getD false = false →
      gebruiksrechtenExists rows ioId = true →
      validate_indicatie_gebruiksrecht inst (gebruiksrechtenExists rows ioId) ind =
        .error .existingGebruiksrechten) ∧
    (∀ r, validate_indicatie_gebruiksrecht inst (gebruiksrechtenExists rows ioId) ind =
        .ok r → ind = some true →
      inst.isSome = true ∧ gebruiksrechtenExists rows ioId = true) := by
  generalize gebruiksrechtenExists rows ioId = gr
  refine ⟨?_, ?_, ?_⟩
  · rintro rfl (rfl | hgr)
    · simp [validate_indicatie_gebruiksrecht]
    · cases inst <;> simp [validate_indicatie_gebruiksrecht, hgr]
  · rintro obj rfl hind hgr
    simp [validate_indicatie_gebruiksrecht, hind, hgr]
  · rintro r hok rfl
    cases inst <;> cases gr <;>
      simp [validate_indicatie_gebruiksrecht] at hok ⊢

/-- C8 witness: true with no rows fails at create; false with an
existing referencing row fails at update. -/
theorem indicatie_gebruiksrecht_invariant_witness :
    validate_indicatie_gebruiksrecht none (gebruiksrechtenExists [] "x")
      (some true) = .error .missingGebruiksrechten ∧
    validate_indicatie_gebruiksrecht (some sampleEio)
      (gebruiksrechtenExists [sampleGebruiksrechten]
        "https://drc.example.com/enkelvoudiginformatieobjecten/1")
      (some false) = .error .existingGebruiksrechten :=
  ⟨(indicatie_gebruiksrecht_invariant none [] "x" (some true)).1 rfl (Or.inl rfl),
   (indicatie_gebruiksrecht_invariant (some sampleEio) [sampleGebruiksrechten]
      "https://drc.example.com/enkelvoudiginformatieobjecten/1" (some false)).2.1
     sampleEio rfl rfl rfl⟩

/-- C2 counterexample: on an update of an object that does have a
referencing usage-rights row, submitting indicatie_gebruiksrecht = true
directly on the resource is accepted, not rejected. -/
theorem indicatie_true_with_rows_accepted :
    validate_indicatie_gebruiksrecht (some sampleEio)
      (gebruiksrechtenExists [sampleGebruiksrechten]
        "https://drc.example.com/enkelvoudiginformatieobjecten/1")
      (some true) = .ok (some true) := rfl

/-- C2 amended: setting the indicator to true directly is rejected with
`missing-gebruiksrechten` on every create and on every update of an
object without referencing usage-rights rows; on an update of an object
with at least one referencing row, true is accepted. -/
theorem indicatie_true_direct_rejection (gr : Bool)
    (obj : EnkelvoudigInformatieObject) :
    validate_indicatie_gebruiksrecht none gr (some true) =
      .error .missingGebruiksrechten ∧
    validate_indicatie_gebruiksrecht (some obj) false (some true) =
      .error .missingGebruiksrechten ∧
    validate_indicatie_gebruiksrecht (some obj) true (some true) =
      .ok (some true) := by
  refine ⟨?_, ?_, ?_⟩ <;> simp [validate_indicatie_gebruiksrecht]

/-- C9: a create whose payload omits vertrouwelijkheidaanduiding calls
the resolver on the declared informatieobjecttype url and stores the
resolved classification; a create that supplies it makes no resolver
call and stores the supplied value. -/
theorem eio_create_classification (vd : ValidatedData)
    (resolver : String → String) (url : String)
    (hurl : vd.informatieobjecttype = some url) :
    (vd.vertrouwelijkheidaanduiding = none →
      (eioCreate vd resolver).resolverCalled = true ∧
      (eioCreate vd resolver).eio.vertrouwelijkheidaanduiding = resolver url) ∧
    (∀ v, vd.vertrouwelijkheidaanduiding = some v →
      (eioCreate vd resolver).resolverCalled = false ∧
      (eioCreate vd resolver).eio.vertrouwelijkheidaanduiding = v) := by
  constructor
  · intro h
    simp [eioCreate, h, hurl]
  · intro v h
    simp [eioCreate, h]

/-- C9 witness: with the classification omitted the resolver result is
stored; with it supplied there is no resolver call. -/
theorem eio_create_classification_witness :
    (eioCreate
        { informatieobjecttype :=
            some "https://ztc.example.com/informatieobjecttypen/1" }
        (fun _ => "geheim")).resolverCalled = true ∧
    (eioCreate
        { informatieobjecttype :=
            some "https://ztc.example.com/informatieobjecttypen/1" }
        (fun _ => "geheim")).eio.vertrouwelijkheidaanduiding = "geheim" ∧
    (eioCreate
        { vertrouwelijkheidaanduiding := some "openbaar",
          informatieobjecttype :=
            some "https://ztc.example.com/informatieobjecttypen/1" }
        (fun _ => "geheim")).resolverCalled = false :=
  ⟨((eio_create_classification
      { informatieobjecttype :=
          some "https://ztc.example.com/informatieobjecttypen/1" }
      (fun _ => "geheim") "https://ztc.example.com/informatieobjecttypen/1"
      rfl).1 rfl).1,
   ((eio_create_classification
      { informatieobjecttype :=
          some "https://ztc.example.com/informatieobjecttypen/1" }
      (fun _ => "geheim") "https://ztc.example.com/informatieobjecttypen/1"
      rfl).1 rfl).2,
   ((eio_create_classification
      { vertrouwelijkheidaanduiding := some "openbaar",
        informatieobjecttype :=
          some "https://ztc.example.com/informatieobjecttypen/1" }
      (fun _ => "geheim") "https://ztc.example.com/informatieobjecttypen/1"
      rfl).2 "openbaar" rfl).1⟩


/-- C1 counterexample: a partial update carrying the valid lock token
and not mentioning integriteit passes the lock validation yet clears
the stored integrity group instead of keeping it. -/
theorem partial_update_clears_integriteit :
    lockedEio.integriteit = some sampleIntegriteit ∧
    eioValidateLock (some lockedEio)
        { titel := some "changed summary",
          lock := some "3a7cbbcc84cb4169a1b2f9d0cbd61f0c" } =
      .ok { titel := some "changed summary",
            lock := some "3a7cbbcc84cb4169a1b2f9d0cbd61f0c" } ∧
    (eioUpdate lockedEio
        { titel := some "changed summary",
          lock := some "3a7cbbcc84cb4169a1b2f9d0cbd61f0c" }).integriteit =
      none :=
  ⟨rfl, rfl, rfl⟩

/-- C1 amended: Update leaves every unspecified plain field unchanged
and writes the supplied ones, but the nested integriteit and
ondertekening groups are overwritten with None whenever the payload
does not mention them (and with the supplied group when it does). -/
theorem eio_update_frame (inst0 : EnkelvoudigInformatieObject)
    (vd : ValidatedData) :
    (vd.integriteit = none → (eioUpdate inst0 vd).integriteit = none) ∧
    (vd.ondertekening = none → (eioUpdate inst0 vd).ondertekening = none) ∧
    (vd.titel = none → (eioUpdate inst0 vd).titel = inst0.titel) ∧
    (vd.identificatie = none →
      (eioUpdate inst0 vd).identificatie = inst0.identificatie) ∧
    (vd.bronorganisatie = none →
      (eioUpdate inst0 vd).bronorganisatie = inst0.bronorganisatie) ∧
    (vd.creatiedatum = none →
      (eioUpdate inst0 vd).creatiedatum = inst0.creatiedatum) ∧
    (vd.vertrouwelijkheidaanduiding = none →
      (eioUpdate inst0 vd).vertrouwelijkheidaanduiding =
        inst0.vertrouwelijkheidaanduiding) ∧
    (vd.auteur = none → (eioUpdate inst0 vd).auteur = inst0.auteur) ∧
    (vd.status = none → (eioUpdate inst0 vd).status = inst0.status) ∧
    (vd.formaat = none → (eioUpdate inst0 vd).formaat = inst0.formaat) ∧
    (vd.taal = none → (eioUpdate inst0 vd).taal = inst0.taal) ∧
    (vd.bestandsnaam = none →
      (eioUpdate inst0 vd).bestandsnaam = inst0.bestandsnaam) ∧
    (vd.inhoud = none → (eioUpdate inst0 vd).inhoud = inst0.inhoud) ∧
    (vd.link = none → (eioUpdate inst0 vd).link = inst0.link) ∧
    (vd.beschrijving = none →
      (eioUpdate inst0 vd).beschrijving = inst0.beschrijving) ∧
    (vd.ontvangstdatum = none →
      (eioUpdate inst0 vd).ontvangstdatum = inst0.ontvangstdatum) ∧
    (vd.verzenddatum = none →
      (eioUpdate inst0 vd).verzenddatum = inst0.verzenddatum) ∧
    (vd.indicatie_gebruiksrecht = none →
      (eioUpdate inst0 vd).indicatie_gebruiksrecht =
        inst0.indicatie_gebruiksrecht) ∧
    (vd.informatieobjecttype = none →
      (eioUpdate inst0 vd).informatieobjecttype =
        inst0.informatieobjecttype) ∧
    (∀ t, vd.titel = some t → (eioUpdate inst0 vd).titel = t) ∧
    (∀ g, vd.integriteit = some g → (eioUpdate inst0 vd).integriteit = g) ∧
    (∀ o, vd.ondertekening = some o →
      (eioUpdate inst0 vd).ondertekening = o) := by
  refine ⟨?_, ?_, ?_, ?_, ?_, ?_, ?_, ?_, ?_, ?_, ?_, ?_, ?_, ?_, ?_, ?_,
          ?_, ?_, ?_, ?_, ?_, ?_⟩ <;>
    (intros; simp [eioUpdate, *])

/-- C1 amended witness: the empty payload on the unlocked fixture
leaves the title unchanged and clears the nested groups. -/
theorem eio_update_frame_witness :
    (eioUpdate sampleEio {}).integriteit = none ∧
    (eioUpdate sampleEio {}).ondertekening = none ∧
    (eioUpdate sampleEio {}).titel = sampleEio.titel :=
  ⟨(eio_update_frame sampleEio {}).1 rfl,
   (eio_update_frame sampleEio {}).2.1 rfl,
   (eio_update_frame sampleEio {}).2.2.1 rfl⟩

/-- C3 counterexample: submitting a different aard_relatie on an
existing relation succeeds with the stored value untouched, instead of
failing with ImmutableFieldModified. -/
theorem oio_aard_relatie_update_ignored :
    oioUpdate sampleOio { aard_relatie := some "legt_vast" } = .ok sampleOio :=
  rfl

/-- C3 amended: modifying object or object_type on an existing relation
fails with the immutable-field error (relations carry no lock, so no
lock state is involved); aard_relatie is not exposed on the serializer,
so a submitted value is ignored and every successful update keeps
object, object_type and aard_relatie unchanged. -/
theorem oio_immutability (inst0 : ObjectInformatieObject) (d : OioData) :
    (∀ v, d.obj = some v → v ≠ inst0.obj →
      oioUpdate inst0 d = .error .immutableField) ∧
    (∀ v, d.object_type = some v → v ≠ inst0.object_type →
      oioUpdate inst0 d = .error .immutableField) ∧
    (d.obj = none ∨ d.obj = some inst0.obj →
      d.object_type = none ∨ d.object_type = some inst0.object_type →
      oioUpdate inst0 d = .ok
        { informatieobject := d.informatieobject.getD inst0.informatieobject
          obj := inst0.obj
          object_type := inst0.object_type
          aard_relatie := inst0.aard_relatie }) := by
  refine ⟨?_, ?_, ?_⟩
  · rintro v hv hne
    simp [oioUpdate, isImmutableCheck, hv, hne]
    rfl
  · rintro v hv hne
    rcases hobj : d.obj with _ | w
    · simp [oioUpdate, isImmutableCheck, hobj, hv, hne]
      rfl
    · by_cases hw : w = inst0.obj
      · simp [oioUpdate, isImmutableCheck, hobj, hv, hne, hw]
        rfl
      · simp [oioUpdate, isImmutableCheck, hobj, hw]
        rfl
  · rintro (h1 | h1) (h2 | h2) <;>
      simp [oioUpdate, isImmutableCheck, h1, h2] <;> rfl

/-- C3 amended witness: changing object fails, changing object_type
fails, and the empty payload succeeds keeping every field. -/
theorem oio_immutability_witness :
    oioUpdate sampleOio { obj := some "https://zrc.example.com/zaken/2" } =
      .error .immutableField ∧
    oioUpdate sampleOio { object_type := some "besluit" } =
      .error .immutableField ∧
    oioUpdate sampleOio {} = .ok sampleOio :=
  ⟨(oio_immutability sampleOio
      { obj := some "https://zrc.example.com/zaken/2" }).1
      "https://zrc.example.com/zaken/2" rfl (by decide),
   (oio_immutability sampleOio { object_type := some "besluit" }).2.1
      "besluit" rfl (by decide),
   (oio_immutability sampleOio {}).2.2 (Or.inl rfl) (Or.inl rfl)⟩

end Drc
